import Mathlib

/-!
Verification of the NNStreamer flatbuffer tensor-converter subplugin
(`ext/nnstreamer/tensor_converter/tensor_converter_flatbuf.cc`).

The development shallowly embeds the two callbacks `fbc_convert` and
`fbc_get_out_config`.  The container's on-wire layout is produced by an
external schema compiler; per the specification the core "only needs read
access to these logical fields, however they are serialized", so the
flatbuffer root is modelled by its logical fields and an input buffer
carries the outcome of the root accessor.  Machine integers (`guint`,
`gsize`) are modelled as `Nat`; the payload lengths and offsets involved
are flatbuffer vector sizes that fit comfortably in the source's 32/64-bit
types, and no claim depends on wrap-around.
-/

namespace Flatbuf

/-- Tensor-count limit `NNS_TENSOR_SIZE_LIMIT` from the NNStreamer plugin API. -/
def NNS_TENSOR_SIZE_LIMIT : Nat := 16

/-- Rank limit `NNS_TENSOR_RANK_LIMIT` from the NNStreamer plugin API. -/
def NNS_TENSOR_RANK_LIMIT : Nat := 4

/-- Value of the `_NNS_UINT8` element-type tag in the `tensor_type` enumeration. -/
def NNS_UINT8 : Nat := 5

/-- Value of the `_NNS_FLOAT32` element-type tag in the `tensor_type` enumeration. -/
def NNS_FLOAT32 : Nat := 7

/-- Value of the `_NNS_END` sentinel of the `tensor_type` enumeration. -/
def NNS_END : Nat := 10

/-- The flatbuffer `frame_rate` table: fields `rate_n`, `rate_d` (signed). -/
structure FrameRate where
  rate_n : Int
  rate_d : Int
  deriving DecidableEq

/-- One flatbuffer `Tensor` table: name, element-type tag, dimension vector,
and the payload byte range inside the mapped input buffer.  `dataOff` is the
value of the pointer difference `tensor_data->data () - in_info.data` the
source computes; `dataLen` is `VectorLength (tensor_data)`. -/
structure FBTensor where
  name : String
  type : Nat
  dimension : List Nat
  dataOff : Nat
  dataLen : Nat
  deriving DecidableEq, Inhabited

/-- The flatbuffer root table `Tensors`: declared tensor count `num_tensor`,
frame rate `fr`, and the vector `tensor` of tensor tables. -/
structure Tensors where
  num_tensor : Nat
  fr : FrameRate
  tensor : List FBTensor
  deriving DecidableEq

/-- Input `GstBuffer` as the converter observes it: whether `gst_memory_map`
succeeds, the mapped size `in_info.size` (never consulted by the source),
the structural metadata (timestamps) that `gst_buffer_copy_into` copies, and
the outcome of running the flatbuffer root accessor over the mapped bytes. -/
structure GstInBuffer where
  mapOk : Bool
  size : Nat
  meta : Nat
  contents : Option Tensors
  deriving DecidableEq

/-- A zero-copy `GstMemory` produced by `gst_memory_share (in_mem, offset, size)`:
a byte range aliasing the input buffer's storage. -/
structure GstMemoryView where
  offset : Nat
  length : Nat
  deriving DecidableEq

/-- Output `GstBuffer`: the appended memory views in order, plus the
structural metadata copied from the input buffer. -/
structure GstOutBuffer where
  mems : List GstMemoryView
  meta : Nat
  deriving DecidableEq

/-- One entry of `GstTensorsInfo.info`: tensor name (`NULL` modelled as
`none`), element-type tag, and the fixed-rank dimension array. -/
structure GstTensorInfo where
  name : Option String
  type : Nat
  dimension : List Nat
  deriving DecidableEq, Inhabited

/-- `GstTensorsConfig`: negotiated tensor count, frame rate and the fixed
array `info` of `NNS_TENSOR_SIZE_LIMIT` per-tensor entries. -/
structure GstTensorsConfig where
  num_tensors : Nat
  rate_n : Int
  rate_d : Int
  info : List GstTensorInfo
  deriving DecidableEq

/-- Error taxonomy of the specification, used to label the exit paths of the
embedded `fbc_convert`: `IoError` labels the `"Cannot map input memory"`
early return, `CapacityError` labels the `"The number of tensors is limited"`
branch.  `ParseError` and `BoundsError` are in the taxonomy so that theorems
can state that no path of the source produces them. -/
inductive ErrKind where
  | IoError
  | ParseError
  | CapacityError
  | BoundsError
  deriving DecidableEq

/-- Result of one `fbc_convert` call.  `aborted` is the `g_assert (tensors)`
failure, which terminates the process.  `returned` carries the returned
`GstBuffer *` (`none` = `NULL`), the final values of the `frame_size` and
`frames_in` out-parameters, the final `config`, whether every acquired
memory mapping was released (`gst_memory_unmap`) before returning, and the
specification-taxonomy label of the taken exit path (`none` on success). -/
inductive ConvertResult where
  | aborted
  | returned (ret : Option GstOutBuffer) (frame_size : Nat) (frames_in : Nat)
      (config : GstTensorsConfig) (unmapped : Bool) (err : Option ErrKind)
  deriving DecidableEq

/-- Modelled from the spec: the root accessor `GetTensors` of the
flatc-generated header `nnstreamer_generated.h`, which is code of this
repository not under `src/`.  Per spec section 4.1 the Container Reader is
`parse(buffer) -> RawContainer | ParseError`; the buffer model carries that
parse outcome in `contents`. -/
def GetTensors (b : GstInBuffer) : Option Tensors := b.contents

/-- The zero-copy share `gst_memory_share (in_mem, offset, mem_size)`:
builds the `MemoryView {offset, length}` aliasing the input storage.  The
source passes `offset` and `mem_size` through unchecked. -/
def gst_memory_share (offset length : Nat) : GstMemoryView :=
  { offset := offset, length := length }

/-- Per-tensor config update of the loop body of `fbc_convert`: the name is
stored when nonempty and `NULL` otherwise, the element-type tag is cast
through unchanged, and the first `NNS_TENSOR_RANK_LIMIT` entries of the
declared dimension vector are copied.  Reading `dimension ()->Get (j)` past
the vector's end is undefined behaviour in the source; the embedding totalises
it with `getD` and every theorem about it assumes the index in range. -/
def setTensor (t : FBTensor) : GstTensorInfo :=
  { name := if 0 < t.name.length then some t.name else none
    type := t.type
    dimension := (List.range NNS_TENSOR_RANK_LIMIT).map (fun j => t.dimension.getD j 0) }

/-- One iteration of the `for (guint i = 0; ...)` loop of `fbc_convert`:
write `config->info.info[i]`, accumulate `*frame_size += mem_size`, and
append the shared memory to the output buffer.  `tensor->Get (i)` past the
vector's end is undefined behaviour in the source, totalised with `getD`. -/
def convertStep (ts : List FBTensor)
    (st : List GstTensorInfo × Nat × List GstMemoryView) (i : Nat) :
    List GstTensorInfo × Nat × List GstMemoryView :=
  let t := ts.getD i default
  (st.1.set i (setTensor t), st.2.1 + t.dataLen,
    st.2.2 ++ [gst_memory_share t.dataOff t.dataLen])

/-- The whole loop of `fbc_convert`, starting from `*frame_size = 0` and an
empty output buffer, run for `n = config->info.num_tensors` iterations. -/
def convertLoop (ts : List FBTensor) (n : Nat) (info0 : List GstTensorInfo) :
    List GstTensorInfo × Nat × List GstMemoryView :=
  (List.range n).foldl (convertStep ts) (info0, 0, ([] : List GstMemoryView))

/-- The converter callback `fbc_convert`, embedded path by path from the
source: map the input memory (on failure log and return `NULL`); run
`GetTensors` and `g_assert` the result (assert failure aborts the process
without unmapping); store the declared count into `config->info.num_tensors`;
if the count exceeds `NNS_TENSOR_SIZE_LIMIT` jump to `done` returning `NULL`
with the out-parameters untouched; otherwise copy the frame rate, run the
per-tensor loop building zero-copy shares, set `*frames_in = 1`, copy the
structural metadata, unmap and return the assembled buffer. -/
def fbc_convert (in_buf : GstInBuffer) (frame_size0 frames_in0 : Nat)
    (config : GstTensorsConfig) : ConvertResult :=
  if in_buf.mapOk = false then
    ConvertResult.returned none frame_size0 frames_in0 config true (some ErrKind.IoError)
  else
    match GetTensors in_buf with
    | none => ConvertResult.aborted
    | some ts =>
      let c1 : GstTensorsConfig := { config with num_tensors := ts.num_tensor }
      if NNS_TENSOR_SIZE_LIMIT < ts.num_tensor then
        ConvertResult.returned none frame_size0 frames_in0 c1 true
          (some ErrKind.CapacityError)
      else
        let c2 : GstTensorsConfig :=
          { c1 with rate_n := ts.fr.rate_n, rate_d := ts.fr.rate_d }
        let st := convertLoop ts.tensor ts.num_tensor c2.info
        ConvertResult.returned
          (some { mems := st.2.2, meta := in_buf.meta })
          st.2.1 1 { c2 with info := st.1 } true none

/-- One `GstStructure` of the negotiated input caps, reduced to the only
field the source reads: an optional `framerate` fraction. -/
structure GstStructure where
  framerate : Option (Int × Int)
  deriving DecidableEq

/-- The constant initial dimension string of `fbc_get_out_config`. -/
def dimStr : String := "1:1:1:1"

/-- Split a character list on the colon separator, keeping empty fields. -/
def splitColon : List Char → List (List Char)
  | [] => [[]]
  | c :: rest =>
    let r := splitColon rest
    if c = ':' then [] :: r
    else
      match r with
      | [] => [[c]]
      | grp :: grps => (c :: grp) :: grps

/-- Parse a nonempty all-digit character list as a decimal number. -/
def parseNatChars (cs : List Char) : Option Nat :=
  if cs = [] then none
  else
    cs.foldl
      (fun acc c =>
        match acc with
        | none => none
        | some n => if c.isDigit then some (n * 10 + (c.toNat - 48)) else none)
      (some 0)

/-- Modelled from the spec: `gst_tensor_parse_dimension` of the NNStreamer
core API, which is code of this repository not under `src/`.  It parses a
colon-separated dimension string into at most `NNS_TENSOR_RANK_LIMIT`
entries, pads unused trailing ranks with 1, and reports rank 0 (modelled as
`none`) on a string with no parsable entry. -/
def gst_tensor_parse_dimension (s : String) : Option (List Nat) :=
  match ((splitColon s.data).take NNS_TENSOR_RANK_LIMIT).mapM parseNatChars with
  | none => none
  | some ds =>
    if ds.length = 0 then none
    else some (ds ++ List.replicate (NNS_TENSOR_RANK_LIMIT - ds.length) 1)

/-- Modelled from the spec: `gst_tensors_config_init` of the NNStreamer core
API, which is code of this repository not under `src/`.  The spec does not
pin its field values; it resets the config to a neutral state (no tensors,
unknown rate, sentinel-typed zero-dimension entries).  No claim depends on
the exact reset values. -/
def gst_tensors_config_init : GstTensorsConfig :=
  { num_tensors := 0
    rate_n := -1
    rate_d := -1
    info := List.replicate NNS_TENSOR_SIZE_LIMIT
      { name := none, type := NNS_END, dimension := [0, 0, 0, 0] } }

/-- The callback `fbc_get_out_config`, embedded from the source: the config
out-parameter is modelled as the returned value (`none` = `FALSE`).  It
initialises the config, requires a non-null caps with a first structure,
sets `info[0].type = _NNS_UINT8` and `num_tensors = 1`, parses the constant
dimension string into `info[0].dimension` (failing if the parse reports
rank 0), and copies the structure's framerate when present, else `(0, 1)`. -/
def fbc_get_out_config (in_cap : Option (List GstStructure)) :
    Option GstTensorsConfig :=
  let config := gst_tensors_config_init
  match in_cap with
  | none => none
  | some caps =>
    match caps.head? with
    | none => none
    | some s =>
      let config : GstTensorsConfig :=
        { config with
          num_tensors := 1
          info := config.info.set 0
            { (config.info.getD 0 default) with type := NNS_UINT8 } }
      match gst_tensor_parse_dimension dimStr with
      | none => none
      | some dims =>
        let config : GstTensorsConfig :=
          { config with
            info := config.info.set 0
              { (config.info.getD 0 default) with dimension := dims } }
        match s.framerate with
        | some (n, d) => some { config with rate_n := n, rate_d := d }
        | none => some { config with rate_n := 0, rate_d := 1 }

/-! Characterisation of the per-tensor loop. -/

theorem convertLoop_succ (ts : List FBTensor) (n : Nat) (info0 : List GstTensorInfo) :
    convertLoop ts (n + 1) info0 = convertStep ts (convertLoop ts n info0) n := by
  unfold convertLoop
  rw [List.range_succ, List.foldl_append]
  rfl

theorem convertLoop_mems (ts : List FBTensor) (n : Nat) (info0 : List GstTensorInfo) :
    (convertLoop ts n info0).2.2 =
      (List.range n).map (fun i =>
        gst_memory_share (ts.getD i default).dataOff (ts.getD i default).dataLen) := by
  induction n with
  | zero => rfl
  | succ n ih =>
    rw [convertLoop_succ, List.range_succ, List.map_append]
    show (convertLoop ts n info0).2.2 ++
        [gst_memory_share (ts.getD n default).dataOff (ts.getD n default).dataLen] = _
    rw [ih]
    rfl

theorem convertLoop_frame_size (ts : List FBTensor) (n : Nat) (info0 : List GstTensorInfo) :
    (convertLoop ts n info0).2.1 =
      ((List.range n).map (fun i => (ts.getD i default).dataLen)).sum := by
  induction n with
  | zero => rfl
  | succ n ih =>
    rw [convertLoop_succ, List.range_succ, List.map_append, List.sum_append]
    show (convertLoop ts n info0).2.1 + (ts.getD n default).dataLen = _
    rw [ih]
    simp

theorem convertLoop_info_length (ts : List FBTensor) (n : Nat) (info0 : List GstTensorInfo) :
    (convertLoop ts n info0).1.length = info0.length := by
  induction n with
  | zero => rfl
  | succ n ih =>
    rw [convertLoop_succ]
    show ((convertLoop ts n info0).1.set n (setTensor (ts.getD n default))).length = _
    rw [List.length_set, ih]

theorem convertLoop_info_getElem (ts : List FBTensor) (n : Nat)
    (info0 : List GstTensorInfo) (i : Nat) :
    (convertLoop ts n info0).1[i]? =
      if i < n ∧ i < info0.length then some (setTensor (ts.getD i default))
      else info0[i]? := by
  induction n with
  | zero =>
    rw [if_neg (fun h => Nat.not_lt_zero i h.1)]
    rfl
  | succ n ih =>
    rw [convertLoop_succ]
    show ((convertLoop ts n info0).1.set n (setTensor (ts.getD n default)))[i]? = _
    by_cases hij : n = i
    · subst hij
      by_cases hn : n < info0.length
      · rw [List.getElem?_set_eq_of_lt _ (by rw [convertLoop_info_length]; exact hn)]
        rw [if_pos ⟨Nat.lt_succ_self n, hn⟩]
      · have hset : (convertLoop ts n info0).1.set n (setTensor (ts.getD n default)) =
            (convertLoop ts n info0).1 := by
          apply List.set_eq_of_length_le
          rw [convertLoop_info_length]
          exact Nat.le_of_not_lt hn
        rw [hset, ih, if_neg (fun h => Nat.lt_irrefl n h.1),
          if_neg (fun h => hn h.2)]
    · rw [List.getElem?_set_ne hij, ih]
      have hcond : (i < n ∧ i < info0.length) ↔ (i < n + 1 ∧ i < info0.length) := by
        constructor
        · exact fun h => ⟨Nat.lt_succ_of_lt h.1, h.2⟩
        · refine fun h => ⟨?_, h.2⟩
          rcases Nat.lt_succ_iff_lt_or_eq.mp h.1 with h1 | h1
          · exact h1
          · exact absurd h1.symm hij
      rw [if_congr hcond rfl rfl]

theorem convertLoop_info_getD (ts : List FBTensor) (n : Nat)
    (info0 : List GstTensorInfo) (i : Nat) (hi : i < n) (hn : n ≤ info0.length) :
    (convertLoop ts n info0).1.getD i default = setTensor (ts.getD i default) := by
  rw [List.getD_eq_getElem?_getD, convertLoop_info_getElem,
    if_pos ⟨hi, Nat.lt_of_lt_of_le hi hn⟩]
  rfl

theorem range_map_getD {α β : Type} [Inhabited α] (l : List α) (f : α → β) :
    (List.range l.length).map (fun i => f (l.getD i default)) = l.map f := by
  apply List.ext_getElem
  · simp
  · intro i h1 h2
    simp only [List.getElem_map, List.getElem_range]
    rw [List.getD_eq_getElem _ _ (by simpa using h2)]

theorem range_map_getD_at {β : Type} (f : Nat → β) (n j : Nat) (hj : j < n)
    (d : β) :
    ((List.range n).map f).getD j d = f j := by
  rw [List.getD_eq_getElem _ _ (by simpa using hj)]
  simp

/-! Path lemmas for `fbc_convert`. -/

theorem fbc_convert_success (b : GstInBuffer) (ts : Tensors) (fs0 fi0 : Nat)
    (c0 : GstTensorsConfig) (hmap : b.mapOk = true) (hc : b.contents = some ts)
    (hk : ts.num_tensor ≤ NNS_TENSOR_SIZE_LIMIT) :
    fbc_convert b fs0 fi0 c0 =
      ConvertResult.returned
        (some { mems := (convertLoop ts.tensor ts.num_tensor c0.info).2.2
                meta := b.meta })
        (convertLoop ts.tensor ts.num_tensor c0.info).2.1 1
        { num_tensors := ts.num_tensor
          rate_n := ts.fr.rate_n
          rate_d := ts.fr.rate_d
          info := (convertLoop ts.tensor ts.num_tensor c0.info).1 } true none := by
  unfold fbc_convert GetTensors
  rw [hmap, hc]
  simp only [Bool.true_eq_false, if_false]
  rw [if_neg (Nat.not_lt.mpr hk)]

theorem fbc_convert_overflow (b : GstInBuffer) (ts : Tensors) (fs0 fi0 : Nat)
    (c0 : GstTensorsConfig) (hmap : b.mapOk = true) (hc : b.contents = some ts)
    (hover : NNS_TENSOR_SIZE_LIMIT < ts.num_tensor) :
    fbc_convert b fs0 fi0 c0 =
      ConvertResult.returned none fs0 fi0 { c0 with num_tensors := ts.num_tensor }
        true (some ErrKind.CapacityError) := by
  unfold fbc_convert GetTensors
  rw [hmap, hc]
  simp only [Bool.true_eq_false, if_false]
  rw [if_pos hover]

/-! Projections on `ConvertResult`, and concrete inputs used by the
counterexamples and witnesses. -/

/-- Whether the call returned a non-null `GstBuffer *`. -/
def returnsSomeBuf : ConvertResult → Bool
  | ConvertResult.returned (some _) _ _ _ _ _ => true
  | _ => false

/-- The memory views of the returned buffer (empty when none was returned). -/
def resultMems : ConvertResult → List GstMemoryView
  | ConvertResult.returned (some out) _ _ _ _ _ => out.mems
  | _ => []

/-- The final config of a `returned` result. -/
def resultConfig : ConvertResult → Option GstTensorsConfig
  | ConvertResult.returned _ _ _ c _ _ => some c
  | ConvertResult.aborted => none

/-- The error label of a `returned` result. -/
def resultErr : ConvertResult → Option ErrKind
  | ConvertResult.returned _ _ _ _ _ e => e
  | ConvertResult.aborted => none

/-- The reset entry used by the modelled `gst_tensors_config_init`. -/
def initTensorInfo : GstTensorInfo :=
  { name := none, type := NNS_END, dimension := [0, 0, 0, 0] }

/-- A caller-side config in its initialised state, used as the in/out
`config` argument of the concrete decode calls. -/
def cfg0 : GstTensorsConfig :=
  { num_tensors := 0
    rate_n := -1
    rate_d := -1
    info := List.replicate NNS_TENSOR_SIZE_LIMIT initTensorInfo }

/-- First tensor of the spec's concrete scenario: named "a", uint8,
shape [1,1,1,1], 4 payload bytes. -/
def demoT1 : FBTensor :=
  { name := "a", type := NNS_UINT8, dimension := [1, 1, 1, 1]
    dataOff := 120, dataLen := 4 }

/-- Second tensor of the spec's concrete scenario: anonymous, float32,
shape [1,1,1,1], 4 payload bytes. -/
def demoT2 : FBTensor :=
  { name := "", type := NNS_FLOAT32, dimension := [1, 1, 1, 1]
    dataOff := 124, dataLen := 4 }

/-- The spec's concrete two-tensor container with frame rate (30, 1). -/
def demoTs : Tensors :=
  { num_tensor := 2, fr := { rate_n := 30, rate_d := 1 }, tensor := [demoT1, demoT2] }

/-- A mappable 128-byte input buffer holding the two-tensor container. -/
def demoBuf : GstInBuffer :=
  { mapOk := true, size := 128, meta := 7, contents := some demoTs }

/-- A container whose single tensor declares payload range (100, 50) inside
an 8-byte buffer: the range exceeds the buffer's bounds. -/
def oobTs : Tensors :=
  { num_tensor := 1, fr := { rate_n := 30, rate_d := 1 }
    tensor := [{ name := "x", type := NNS_UINT8, dimension := [1, 1, 1, 1]
                 dataOff := 100, dataLen := 50 }] }

/-- The 8-byte input buffer carrying the out-of-bounds container. -/
def oobBuf : GstInBuffer :=
  { mapOk := true, size := 8, meta := 0, contents := some oobTs }

/-- A container declaring exactly `NNS_TENSOR_SIZE_LIMIT` tensors. -/
def atTs : Tensors :=
  { num_tensor := 16, fr := { rate_n := 25, rate_d := 1 }
    tensor := List.replicate 16 demoT1 }

/-- Input buffer for the at-limit container. -/
def atBuf : GstInBuffer :=
  { mapOk := true, size := 4096, meta := 3, contents := some atTs }

/-- A container declaring `NNS_TENSOR_SIZE_LIMIT + 1` tensors. -/
def overTs : Tensors :=
  { num_tensor := 17, fr := { rate_n := 25, rate_d := 1 }
    tensor := List.replicate 17 demoT1 }

/-- Input buffer for the over-limit container. -/
def overBuf : GstInBuffer :=
  { mapOk := true, size := 4096, meta := 3, contents := some overTs }

/-- A mappable buffer whose bytes do not parse as a `Tensors` root. -/
def badParseBuf : GstInBuffer :=
  { mapOk := true, size := 2, meta := 0, contents := none }

/-! The claims. -/

/-- C1, counterexample: the claim says a container whose payload range
exceeds the input buffer's bounds makes decode fail with `BoundsError`.  On
the 8-byte buffer `oobBuf`, whose only tensor declares payload range
(100, 50) with 100 + 50 > 8, `fbc_convert` instead returns a non-null
output buffer whose single view is exactly that out-of-bounds range, with
no error. -/
theorem C1_counterexample :
    returnsSomeBuf (fbc_convert oobBuf 0 0 cfg0) = true ∧
    resultMems (fbc_convert oobBuf 0 0 cfg0) = [{ offset := 100, length := 50 }] ∧
    resultErr (fbc_convert oobBuf 0 0 cfg0) = none ∧
    oobBuf.size = 8 ∧ 100 + 50 > oobBuf.size := by
  decide

/-- C1, amended: the source performs no bounds validation.  A successful
decode's memory views are exactly the container-declared (offset, length)
pairs, whatever they are relative to the buffer's size, and no exit path of
`fbc_convert` ever carries `BoundsError`. -/
theorem C1_amended (b : GstInBuffer) (ts : Tensors) (fs0 fi0 : Nat)
    (c0 : GstTensorsConfig) (hmap : b.mapOk = true) (hc : b.contents = some ts)
    (hk : ts.num_tensor ≤ NNS_TENSOR_SIZE_LIMIT)
    (hwf : ts.num_tensor = ts.tensor.length) :
    (∃ fs c, fbc_convert b fs0 fi0 c0 =
        ConvertResult.returned
          (some { mems := ts.tensor.map (fun t => gst_memory_share t.dataOff t.dataLen)
                  meta := b.meta })
          fs 1 c true none) ∧
    (∀ b2 fs2 fi2 c2 r fs fi c u,
        fbc_convert b2 fs2 fi2 c2 ≠
          ConvertResult.returned r fs fi c u (some ErrKind.BoundsError)) := by
  constructor
  · have h := fbc_convert_success b ts fs0 fi0 c0 hmap hc hk
    rw [convertLoop_mems, hwf,
      range_map_getD ts.tensor (fun t => gst_memory_share t.dataOff t.dataLen)] at h
    exact ⟨_, _, h⟩
  · intro b2 fs2 fi2 c2 r fs fi c u
    unfold fbc_convert
    by_cases hm : b2.mapOk = false
    · simp [hm]
    · simp only [hm, if_false]
      cases hg : GetTensors b2 with
      | none => simp
      | some ts2 =>
        by_cases ho : NNS_TENSOR_SIZE_LIMIT < ts2.num_tensor <;> simp [ho]

/-- C1, witness for the amended theorem at the concrete two-tensor
container of the spec's scenario. -/
theorem C1_amended_witness :
    (∃ fs c, fbc_convert demoBuf 0 0 cfg0 =
        ConvertResult.returned
          (some { mems := demoTs.tensor.map (fun t => gst_memory_share t.dataOff t.dataLen)
                  meta := demoBuf.meta })
          fs 1 c true none) ∧
    (∀ b2 fs2 fi2 c2 r fs fi c u,
        fbc_convert b2 fs2 fi2 c2 ≠
          ConvertResult.returned r fs fi c u (some ErrKind.BoundsError)) :=
  C1_amended demoBuf demoTs 0 0 cfg0 rfl rfl (by decide) (by decide)

/-- C4, counterexample: the claim says that on a capacity overflow every
field of the in/out config is left unchanged.  On the 17-tensor container
`overBuf`, `fbc_convert` returns a config whose `num_tensors` was already
overwritten with 17, which differs from the entry config `cfg0`. -/
theorem C4_counterexample :
    resultConfig (fbc_convert overBuf 0 0 cfg0) =
      some { cfg0 with num_tensors := 17 } ∧
    ({ cfg0 with num_tensors := 17 } : GstTensorsConfig) ≠ cfg0 := by
  decide

/-- C4, amended: when the declared tensor count exceeds the limit the call
stops before the frame-rate copy and the per-tensor loop, so the config's
`rate_n`, `rate_d` and per-tensor `info` are unchanged, no output buffer is
produced and the out-parameters keep their entry values; but
`config.num_tensors` has already been overwritten with the declared
over-limit count before the check fires. -/
theorem C4_amended (b : GstInBuffer) (ts : Tensors) (fs0 fi0 : Nat)
    (c0 : GstTensorsConfig) (hmap : b.mapOk = true) (hc : b.contents = some ts)
    (hover : NNS_TENSOR_SIZE_LIMIT < ts.num_tensor) :
    ∃ c, fbc_convert b fs0 fi0 c0 =
        ConvertResult.returned none fs0 fi0 c true (some ErrKind.CapacityError) ∧
      c.rate_n = c0.rate_n ∧ c.rate_d = c0.rate_d ∧ c.info = c0.info ∧
      c.num_tensors = ts.num_tensor := by
  exact ⟨_, fbc_convert_overflow b ts fs0 fi0 c0 hmap hc hover, rfl, rfl, rfl, rfl⟩

/-- C4, witness for the amended theorem at the concrete 17-tensor container. -/
theorem C4_amended_witness :
    ∃ c, fbc_convert overBuf 5 9 cfg0 =
        ConvertResult.returned none 5 9 c true (some ErrKind.CapacityError) ∧
      c.rate_n = cfg0.rate_n ∧ c.rate_d = cfg0.rate_d ∧ c.info = cfg0.info ∧
      c.num_tensors = overTs.num_tensor :=
  C4_amended overBuf overTs 5 9 cfg0 rfl rfl (by decide)

/-- C5, counterexample: the claim says the source, on exceeding the tensor
count limit, returns an already-allocated-but-empty non-null output object.
On the 17-tensor container it returns `NULL` (`none`): `gst_buffer_new` is
only reached after the limit check, so `out_buf` is still `NULL` at the
`goto done`. -/
theorem C5_counterexample :
    fbc_convert overBuf 0 0 cfg0 =
      ConvertResult.returned none 0 0 { cfg0 with num_tensors := 17 } true
        (some ErrKind.CapacityError) := by
  decide

/-- C5, amended: on exceeding the tensor-count limit the convert operation
returns `NULL` — an explicit failure signal to the caller — and never a
non-null output object; the capacity branch precedes the buffer
allocation. -/
theorem C5_amended (b : GstInBuffer) (ts : Tensors) (fs0 fi0 : Nat)
    (c0 : GstTensorsConfig) (hmap : b.mapOk = true) (hc : b.contents = some ts)
    (hover : NNS_TENSOR_SIZE_LIMIT < ts.num_tensor) :
    (∀ out fs fi c u e,
        fbc_convert b fs0 fi0 c0 ≠ ConvertResult.returned (some out) fs fi c u e) ∧
    ∃ c, fbc_convert b fs0 fi0 c0 =
        ConvertResult.returned none fs0 fi0 c true (some ErrKind.CapacityError) := by
  rw [fbc_convert_overflow b ts fs0 fi0 c0 hmap hc hover]
  exact ⟨fun out fs fi c u e h => by simp at h, ⟨_, rfl⟩⟩

/-- C5, witness for the amended theorem at the concrete 17-tensor container. -/
theorem C5_amended_witness :
    (∀ out fs fi c u e,
        fbc_convert overBuf 0 0 cfg0 ≠ ConvertResult.returned (some out) fs fi c u e) ∧
    ∃ c, fbc_convert overBuf 0 0 cfg0 =
        ConvertResult.returned none 0 0 c true (some ErrKind.CapacityError) :=
  C5_amended overBuf overTs 0 0 cfg0 rfl rfl (by decide)

/-- C9: evaluation at the failing input.  On a mappable buffer whose bytes
do not parse as a `Tensors` root, `fbc_convert` hits `g_assert (tensors)`
and terminates the process (without unmapping), instead of releasing the
mapping and returning a `ParseError` failure result as the claim states. -/
theorem C9_assert_abort :
    fbc_convert badParseBuf 0 0 cfg0 = ConvertResult.aborted := by
  decide

/-- C10: when the declared tensor count exceeds `NNS_TENSOR_SIZE_LIMIT`,
`fbc_convert` returns `NULL`, the `frame_size` and `frames_in`
out-parameters keep their entry values (they are only written after the
limit check passes), and the input memory mapping is released before
returning. -/
theorem C10_overlimit_effects (b : GstInBuffer) (ts : Tensors) (fs0 fi0 : Nat)
    (c0 : GstTensorsConfig) (hmap : b.mapOk = true) (hc : b.contents = some ts)
    (hover : NNS_TENSOR_SIZE_LIMIT < ts.num_tensor) :
    fbc_convert b fs0 fi0 c0 =
      ConvertResult.returned none fs0 fi0 { c0 with num_tensors := ts.num_tensor }
        true (some ErrKind.CapacityError) :=
  fbc_convert_overflow b ts fs0 fi0 c0 hmap hc hover

/-- C10, witness at the concrete 17-tensor container with nonzero entry
values of the out-parameters. -/
theorem C10_overlimit_effects_witness :
    fbc_convert overBuf 11 2 cfg0 =
      ConvertResult.returned none 11 2 { cfg0 with num_tensors := overTs.num_tensor }
        true (some ErrKind.CapacityError) :=
  C10_overlimit_effects overBuf overTs 11 2 cfg0 rfl rfl (by decide)

/-- C2: for every well-formed container with at most `NNS_TENSOR_SIZE_LIMIT`
tensors, a successful decode sets `config.num_tensors` to the declared
count, copies the container's frame-rate pair, and for every tensor index
copies the name (the source stores `NULL` for the empty name, the encoding
of an absent/anonymous name per the spec's data model), the element-type
tag, and all `NNS_TENSOR_RANK_LIMIT` entries of the declared shape, in
declaration order. -/
theorem C2_roundtrip (b : GstInBuffer) (ts : Tensors) (fs0 fi0 : Nat)
    (c0 : GstTensorsConfig) (hmap : b.mapOk = true) (hc : b.contents = some ts)
    (hk : ts.num_tensor ≤ NNS_TENSOR_SIZE_LIMIT)
    (_hwf : ts.num_tensor = ts.tensor.length)
    (hcap : ts.num_tensor ≤ c0.info.length) :
    ∃ out fs c, fbc_convert b fs0 fi0 c0 =
        ConvertResult.returned (some out) fs 1 c true none ∧
      c.num_tensors = ts.num_tensor ∧
      c.rate_n = ts.fr.rate_n ∧ c.rate_d = ts.fr.rate_d ∧
      ∀ i, i < ts.num_tensor →
        (c.info.getD i default).name =
          (if 0 < (ts.tensor.getD i default).name.length
           then some (ts.tensor.getD i default).name else none) ∧
        (c.info.getD i default).type = (ts.tensor.getD i default).type ∧
        ∀ j, j < NNS_TENSOR_RANK_LIMIT →
          (c.info.getD i default).dimension.getD j 0 =
            (ts.tensor.getD i default).dimension.getD j 0 := by
  have h := fbc_convert_success b ts fs0 fi0 c0 hmap hc hk
  refine ⟨_, _, _, h, rfl, rfl, rfl, ?_⟩
  intro i hi
  have hset : (convertLoop ts.tensor ts.num_tensor c0.info).1.getD i default =
      setTensor (ts.tensor.getD i default) :=
    convertLoop_info_getD ts.tensor ts.num_tensor c0.info i hi hcap
  dsimp only
  rw [hset]
  unfold setTensor
  refine ⟨rfl, rfl, ?_⟩
  intro j hj
  exact range_map_getD_at (fun j => (ts.tensor.getD i default).dimension.getD j 0)
    NNS_TENSOR_RANK_LIMIT j hj 0

/-- C2, witness at the spec's concrete two-tensor scenario. -/
theorem C2_roundtrip_witness :
    ∃ out fs c, fbc_convert demoBuf 0 0 cfg0 =
        ConvertResult.returned (some out) fs 1 c true none ∧
      c.num_tensors = demoTs.num_tensor ∧
      c.rate_n = demoTs.fr.rate_n ∧ c.rate_d = demoTs.fr.rate_d ∧
      ∀ i, i < demoTs.num_tensor →
        (c.info.getD i default).name =
          (if 0 < (demoTs.tensor.getD i default).name.length
           then some (demoTs.tensor.getD i default).name else none) ∧
        (c.info.getD i default).type = (demoTs.tensor.getD i default).type ∧
        ∀ j, j < NNS_TENSOR_RANK_LIMIT →
          (c.info.getD i default).dimension.getD j 0 =
            (demoTs.tensor.getD i default).dimension.getD j 0 :=
  C2_roundtrip demoBuf demoTs 0 0 cfg0 rfl rfl (by decide) (by decide) (by decide)

/-- C3: a container declaring exactly `NNS_TENSOR_SIZE_LIMIT` tensors
decodes successfully, while a container declaring one more makes the call
fail on the capacity branch with the out-parameters untouched, and no
output buffer of any kind is produced. -/
theorem C3_capacity_boundary (bAt bOver : GstInBuffer) (tsAt tsOver : Tensors)
    (fs0 fi0 : Nat) (c0 : GstTensorsConfig)
    (hmapA : bAt.mapOk = true) (hcA : bAt.contents = some tsAt)
    (hA : tsAt.num_tensor = NNS_TENSOR_SIZE_LIMIT)
    (hmapO : bOver.mapOk = true) (hcO : bOver.contents = some tsOver)
    (hO : tsOver.num_tensor = NNS_TENSOR_SIZE_LIMIT + 1) :
    (∃ out fs c, fbc_convert bAt fs0 fi0 c0 =
        ConvertResult.returned (some out) fs 1 c true none) ∧
    (∃ c, fbc_convert bOver fs0 fi0 c0 =
        ConvertResult.returned none fs0 fi0 c true (some ErrKind.CapacityError)) ∧
    (∀ out fs fi c u e,
        fbc_convert bOver fs0 fi0 c0 ≠
          ConvertResult.returned (some out) fs fi c u e) := by
  have hs := fbc_convert_success bAt tsAt fs0 fi0 c0 hmapA hcA (Nat.le_of_eq hA)
  have ho := fbc_convert_overflow bOver tsOver fs0 fi0 c0 hmapO hcO
    (by rw [hO]; exact Nat.lt_succ_self _)
  refine ⟨⟨_, _, _, hs⟩, ⟨_, ho⟩, ?_⟩
  intro out fs fi c u e h
  rw [ho] at h
  simp at h

/-- C3, witness at concrete 16- and 17-tensor containers. -/
theorem C3_capacity_boundary_witness :
    (∃ out fs c, fbc_convert atBuf 0 0 cfg0 =
        ConvertResult.returned (some out) fs 1 c true none) ∧
    (∃ c, fbc_convert overBuf 0 0 cfg0 =
        ConvertResult.returned none 0 0 c true (some ErrKind.CapacityError)) ∧
    (∀ out fs fi c u e,
        fbc_convert overBuf 0 0 cfg0 ≠
          ConvertResult.returned (some out) fs fi c u e) :=
  C3_capacity_boundary atBuf overBuf atTs overTs 0 0 cfg0 rfl rfl (by decide)
    rfl rfl (by decide)

/-- C6: for every successful decode, the sum of the lengths of the output
buffer's memory views equals the sum of the declared payload lengths of all
tensors in the container, and the `frame_size` out-parameter reports that
same sum. -/
theorem C6_byte_conservation (b : GstInBuffer) (ts : Tensors) (fs0 fi0 : Nat)
    (c0 : GstTensorsConfig) (hmap : b.mapOk = true) (hc : b.contents = some ts)
    (hk : ts.num_tensor ≤ NNS_TENSOR_SIZE_LIMIT)
    (hwf : ts.num_tensor = ts.tensor.length) :
    ∃ out c, fbc_convert b fs0 fi0 c0 =
        ConvertResult.returned (some out)
          ((ts.tensor.map FBTensor.dataLen).sum) 1 c true none ∧
      (out.mems.map GstMemoryView.length).sum =
        (ts.tensor.map FBTensor.dataLen).sum := by
  have h := fbc_convert_success b ts fs0 fi0 c0 hmap hc hk
  rw [convertLoop_mems, convertLoop_frame_size, hwf,
    range_map_getD ts.tensor (fun t => gst_memory_share t.dataOff t.dataLen),
    range_map_getD ts.tensor (fun t => t.dataLen)] at h
  refine ⟨_, _, h, ?_⟩
  show ((ts.tensor.map (fun t => gst_memory_share t.dataOff t.dataLen)).map
      GstMemoryView.length).sum = _
  rw [List.map_map]
  rfl

/-- C6, witness at the spec's concrete two-tensor scenario (total 8 bytes). -/
theorem C6_byte_conservation_witness :
    ∃ out c, fbc_convert demoBuf 0 0 cfg0 =
        ConvertResult.returned (some out)
          ((demoTs.tensor.map FBTensor.dataLen).sum) 1 c true none ∧
      (out.mems.map GstMemoryView.length).sum =
        (demoTs.tensor.map FBTensor.dataLen).sum :=
  C6_byte_conservation demoBuf demoTs 0 0 cfg0 rfl rfl (by decide) (by decide)

/-- C7: for a non-null caps carrying a first structure, `fbc_get_out_config`
succeeds with `num_tensors = 1`, element type uint8 and shape [1,1,1,1] on
the first entry, copying the structure's framerate when present and storing
(0, 1) otherwise; it fails on a null caps or a caps with no structure. -/
theorem C7_get_out_config (s : GstStructure) (rest : List GstStructure) :
    (∃ c, fbc_get_out_config (some (s :: rest)) = some c ∧
       c.num_tensors = 1 ∧
       (c.info.getD 0 default).type = NNS_UINT8 ∧
       (c.info.getD 0 default).dimension = [1, 1, 1, 1] ∧
       (∀ n d, s.framerate = some (n, d) → c.rate_n = n ∧ c.rate_d = d) ∧
       (s.framerate = none → c.rate_n = 0 ∧ c.rate_d = 1)) ∧
    fbc_get_out_config none = none ∧
    fbc_get_out_config (some ([] : List GstStructure)) = none := by
  refine ⟨?_, rfl, rfl⟩
  obtain ⟨fr⟩ := s
  cases fr with
  | none =>
    refine ⟨_, rfl, rfl, rfl, rfl, ?_, fun _ => ⟨rfl, rfl⟩⟩
    intro n d hnd
    exact Option.noConfusion hnd
  | some nd =>
    obtain ⟨n, d⟩ := nd
    refine ⟨_, rfl, rfl, rfl, rfl, ?_, ?_⟩
    · intro n2 d2 hnd
      have h2 : (n, d) = (n2, d2) := Option.some.inj hnd
      rw [Prod.mk.injEq] at h2
      exact ⟨by rw [← h2.1], by rw [← h2.2]⟩
    · intro hnd
      exact Option.noConfusion hnd

/-- C7, witness at a concrete structure with framerate (30, 1). -/
theorem C7_get_out_config_witness :
    (∃ c, fbc_get_out_config (some [({ framerate := some (30, 1) } : GstStructure)]) =
          some c ∧
       c.num_tensors = 1 ∧
       (c.info.getD 0 default).type = NNS_UINT8 ∧
       (c.info.getD 0 default).dimension = [1, 1, 1, 1] ∧
       (∀ n d, ({ framerate := some (30, 1) } : GstStructure).framerate = some (n, d) →
          c.rate_n = n ∧ c.rate_d = d) ∧
       (({ framerate := some (30, 1) } : GstStructure).framerate = none →
          c.rate_n = 0 ∧ c.rate_d = 1)) ∧
    fbc_get_out_config none = none ∧
    fbc_get_out_config (some ([] : List GstStructure)) = none :=
  C7_get_out_config { framerate := some (30, 1) } []

/-- C8: a well-formed container declaring zero tensors decodes successfully:
`config.num_tensors` becomes 0, the frame rate is still copied, and the
returned output buffer holds zero memory views with the input buffer's
structural metadata copied over. -/
theorem C8_zero_tensors (b : GstInBuffer) (ts : Tensors) (fs0 fi0 : Nat)
    (c0 : GstTensorsConfig) (hmap : b.mapOk = true) (hc : b.contents = some ts)
    (h0 : ts.num_tensor = 0) :
    fbc_convert b fs0 fi0 c0 =
      ConvertResult.returned (some { mems := [], meta := b.meta }) 0 1
        { num_tensors := 0
          rate_n := ts.fr.rate_n
          rate_d := ts.fr.rate_d
          info := c0.info } true none := by
  have h := fbc_convert_success b ts fs0 fi0 c0 hmap hc
    (by rw [h0]; exact Nat.zero_le _)
  rw [h0] at h
  exact h

/-- C8, witness at a concrete zero-tensor container. -/
theorem C8_zero_tensors_witness :
    fbc_convert { mapOk := true, size := 32, meta := 5
                  contents := some { num_tensor := 0
                                     fr := { rate_n := 30, rate_d := 1 }
                                     tensor := [] } } 0 0 cfg0 =
      ConvertResult.returned (some { mems := [], meta := 5 }) 0 1
        { num_tensors := 0, rate_n := 30, rate_d := 1, info := cfg0.info } true none :=
  C8_zero_tensors _ _ 0 0 cfg0 rfl rfl rfl

end Flatbuf
